import Mathlib

/-!
Verification development for the 42-connector client library (src/main.ts).

The embedding models the four components of the request pipeline:

* `RequestLimiter.limit` — the per-second rate limiter (`RequestLimiter` class);
* `fetchTokenReq` — the `_fetch` retry loop as run for the token-grant request
  (`isTokenUpdateRequest = true`, so no token-attachment step);
* `updateToken` — `_updateToken`;
* `fetchProtected` — `_fetch` for protected requests
  (`isTokenUpdateRequest = false`: token check/attach, limiter, HTTP attempt,
  429 backoff, recursing into itself exactly as line 122 of the source does);
* `getPagedLoop` — the `getPaged` pagination loop.

Real time is made explicit: every physical HTTP attempt carries the wall-clock
instants the code reads (`Date.now()` before the fetch, the instant the
response settles, and `Date.now()` at the 429 check).  The abort timer set on
line 102 of the source is modelled including the documented Node `setTimeout`
clamping: a delay that is not in `[1, 2^31 - 1]` (in particular `Infinity`,
the default `timeout`) is replaced by 1 ms.  JSON bodies are modelled by
`JSValue` with JavaScript truthiness, property access and `Array.concat`
semantics, since the source manipulates parsed bodies dynamically.
-/

namespace Conn

/-- Parsed JSON values as produced by `response.json()`, with enough structure
to express JavaScript truthiness, `.length` access and `concat`. -/
inductive JSValue where
  | null
  | bool (b : Bool)
  | num (n : Int)
  | str (s : String)
  | arr (elems : List JSValue)
  | obj (fields : List (String × JSValue))

/-- JavaScript truthiness of a parsed JSON value (`!v` in the source negates
this): `null`, `false`, `0` and the empty string are falsy; arrays and objects
are always truthy. -/
def JSValue.truthy : JSValue → Bool
  | .null => false
  | .bool b => b
  | .num n => n != 0
  | .str s => s != ""
  | .arr _ => true
  | .obj _ => true

/-- Association-list lookup for object fields. -/
def lookupField : List (String × JSValue) → String → Option JSValue
  | [], _ => none
  | (k, v) :: rest, key => if k = key then some v else lookupField rest key

/-- The value of `v.length`: strings and arrays expose their length, objects
expose a `length` field if the JSON happened to contain one, every other value
yields JavaScript `undefined` (modelled as `none`). -/
def JSValue.lengthProp : JSValue → Option JSValue
  | .str s => some (.num s.length)
  | .arr l => some (.num l.length)
  | .obj fs => lookupField fs ("length")
  | _ => none

/-- The loop guard of the source, `response.json.length === 0`: strict equality, so
it holds exactly when the `length` property is the number `0`. -/
def JSValue.lengthIsZero (v : JSValue) : Bool :=
  match v.lengthProp with
  | some (.num 0) => true
  | _ => false

/-- The elements that `items.concat(v)` appends: an array argument is spread
one level, any other value is appended as a single element. -/
def concatElems : JSValue → List JSValue
  | .arr l => l
  | v => [v]

/-- Property access `v.x` in JavaScript: throws a `TypeError` on `null`
(modelled as `Except.error`), yields the field on objects, and `undefined`
(modelled as `none`) on other values, which have no such own property for the
names the source reads (`access_token`, `expires_in`). -/
def getFieldJS : JSValue → String → Except Unit (Option JSValue)
  | .null, _ => Except.error ()
  | .obj fs, k => Except.ok (lookupField fs k)
  | _, _ => Except.ok none

/-- JavaScript `ToNumber` on the parsed-JSON values the source can feed into
`expires_in * 1000`: `null` is 0, booleans are 0/1, numbers are themselves,
the empty string is 0, a digit string is its value, and everything else
(non-numeric strings, non-empty arrays, objects) is `NaN`, modelled as
`none`. -/
def toNumber : JSValue → Option Int
  | .null => some 0
  | .bool b => some (if b then 1 else 0)
  | .num n => some n
  | .str s => if s = "" then some 0 else (s.toNat?).map Int.ofNat
  | .arr [] => some 0
  | .arr (_ :: _) => none
  | .obj _ => none

/-! ## RequestLimiter -/

/-- Mutable state of the `RequestLimiter` class: the current one-second bucket
(`_thisSecond`) and the number of requests counted in it
(`_requestsThisSecond`).  The constructor initialises both to 0. -/
structure LimiterState where
  thisSecond : Nat
  requestsThisSecond : Nat

/-- One call of `RequestLimiter.limit()` at wall-clock instant `now`
(milliseconds).  Returns the new state and `some wait` when the call suspends
for `wait` milliseconds (the `setTimeout` promise on line 32), `none` when it
returns immediately.  Mirrors lines 23–34 of the source: a new second resets
the counter and returns; otherwise the counter is incremented and the call
suspends until the start of the next second when the counter reaches the
configured maximum. -/
def RequestLimiter.limit (maxReq : ℚ) (st : LimiterState) (now : Nat) :
    LimiterState × Option Nat :=
  if now / 1000 ≠ st.thisSecond then
    ({ thisSecond := now / 1000, requestsThisSecond := 0 }, none)
  else
    let c := st.requestsThisSecond + 1
    if maxReq ≤ (c : ℚ) then
      ({ st with requestsThisSecond := c }, some ((st.thisSecond + 1) * 1000 - now))
    else
      ({ st with requestsThisSecond := c }, none)

/-- A sequence of `limit()` calls at the given instants, collecting each
suspension outcome of each call. -/
def limitRun (maxReq : ℚ) : LimiterState → List Nat → LimiterState × List (Option Nat)
  | st, [] => (st, [])
  | st, n :: rest =>
    let p := RequestLimiter.limit maxReq st n
    let q := limitRun maxReq p.1 rest
    (q.1, p.2 :: q.2)

theorem limit_same_second (maxReq : ℚ) (S r n : Nat) (hn : n / 1000 = S) :
    RequestLimiter.limit maxReq ⟨S, r⟩ n =
      (⟨S, r + 1⟩,
        if maxReq ≤ ((r : ℚ) + 1) then some ((S + 1) * 1000 - n) else none) := by
  unfold RequestLimiter.limit
  simp only [hn]
  split
  · omega
  · have hc : ((r + 1 : Nat) : ℚ) = (r : ℚ) + 1 := by push_cast; ring
    split <;> rename_i hle <;> simp only [hc] at hle
    · rw [if_pos hle]
    · rw [if_neg hle]

theorem limitRun_same_second (maxReq : ℚ) (S : Nat) (nows : List Nat)
    (h : ∀ n ∈ nows, n / 1000 = S) :
    ∀ (r i : Nat) (hi : i < nows.length),
      (limitRun maxReq ⟨S, r⟩ nows).2[i]? =
        some (if maxReq ≤ ((r : ℚ) + (i : ℚ) + 1)
              then some ((S + 1) * 1000 - nows[i])
              else none) := by
  induction nows with
  | nil => intro r i hi; simp at hi
  | cons n rest ih =>
    intro r i hi
    have hn : n / 1000 = S := h n (List.mem_cons_self n rest)
    have hrest : ∀ m ∈ rest, m / 1000 = S := fun m hm => h m (List.mem_cons_of_mem n hm)
    match i with
    | 0 =>
      simp only [limitRun, limit_same_second maxReq S r n hn]
      norm_num
    | i + 1 =>
      have hi2 : i < rest.length := by simpa using hi
      have := ih hrest (r + 1) i hi2
      simp only [limitRun, limit_same_second maxReq S r n hn]
      simp only [List.getElem?_cons_succ, List.getElem_cons_succ]
      rw [this]
      have hcast : ((r : ℚ) + 1) + (i : ℚ) + 1 = (r : ℚ) + ((i : ℚ) + 1) + 1 := by ring
      have : (((r + 1 : Nat) : ℚ)) + (i : ℚ) + 1 = (r : ℚ) + (((i + 1 : Nat)) : ℚ) + 1 := by
        push_cast; ring
      rw [this]

theorem limit_reset (maxReq : ℚ) (st : LimiterState) (n : Nat)
    (h : n / 1000 ≠ st.thisSecond) :
    RequestLimiter.limit maxReq st n = (⟨n / 1000, 0⟩, none) := by
  unfold RequestLimiter.limit
  rw [if_pos h]

/-- C3: for every sequence of `limit()` calls issued within the same
wall-clock second `S` (entered with limiter state from a different second),
with an integer configured maximum `N ≥ 1` exactly the first `N` calls
return without suspending and every later call (in particular the
`(N+1)`-th) suspends; with a configured maximum below 1 every call after the
first suspends; and every suspending call sleeps exactly until the start of
the next wall-clock second. -/
theorem C3_rate_limiter (maxReq : ℚ) (st0 : LimiterState) (S : Nat) (nows : List Nat)
    (hS : st0.thisSecond ≠ S) (hnows : ∀ n ∈ nows, n / 1000 = S) :
    (∀ N : ℕ, maxReq = (N : ℚ) → 1 ≤ N → ∀ i, i < nows.length →
        ((limitRun maxReq st0 nows).2[i]? = some none ↔ i < N)) ∧
    (maxReq < 1 → ∀ i, i < nows.length →
        ((limitRun maxReq st0 nows).2[i]? = some none ↔ i = 0)) ∧
    (∀ (i n w : Nat), nows[i]? = some n →
        (limitRun maxReq st0 nows).2[i]? = some (some w) →
        n + w = (S + 1) * 1000) := by
  match nows with
  | [] =>
    refine ⟨?_, ?_, ?_⟩
    · intro N _ _ i hi; simp at hi
    · intro _ i hi; simp at hi
    · intro i n w hn _; simp at hn
  | n0 :: rest =>
    have hn0 : n0 / 1000 = S := hnows n0 (List.mem_cons_self n0 rest)
    have hrest : ∀ m ∈ rest, m / 1000 = S := fun m hm => hnows m (List.mem_cons_of_mem n0 hm)
    have hrun : (limitRun maxReq st0 (n0 :: rest)).2 =
        none :: (limitRun maxReq ⟨S, 0⟩ rest).2 := by
      have hne : n0 / 1000 ≠ st0.thisSecond := by
        rw [hn0]; exact fun hc => hS hc.symm
      simp only [limitRun, limit_reset maxReq st0 n0 hne, hn0]
    have key := limitRun_same_second maxReq S rest hrest 0
    refine ⟨?_, ?_, ?_⟩
    · intro N hNq hN1 i hi
      rw [hrun]
      rcases i with _ | i
      · simpa using hN1
      · have hi2 : i < rest.length := by simpa using hi
        simp only [List.getElem?_cons_succ]
        rw [key i hi2]
        simp only [Nat.cast_zero, zero_add]
        subst hNq
        rcases le_or_lt ((N : ℚ)) ((i : ℚ) + 1) with hle | hlt
        · rw [if_pos hle]
          have hni : N ≤ i + 1 := by exact_mod_cast hle
          simp only [Option.some.injEq]
          constructor
          · intro hcon; exact absurd hcon (by simp)
          · intro hcon; omega
        · rw [if_neg (not_le.mpr hlt)]
          have hni : (i + 1 : ℕ) < N := by exact_mod_cast hlt
          simp [hni]
    · intro hmax i hi
      rw [hrun]
      rcases i with _ | i
      · simp
      · have hi2 : i < rest.length := by simpa using hi
        simp only [List.getElem?_cons_succ]
        rw [key i hi2]
        simp only [Nat.cast_zero, zero_add]
        have hone : (1 : ℚ) ≤ (i : ℚ) + 1 := by
          have := Nat.cast_nonneg (α := ℚ) i
          linarith
        rw [if_pos (le_trans (le_of_lt hmax) hone)]
        simp
    · intro i n w hn hw
      rw [hrun] at hw
      rcases i with _ | i
      · simp at hw
      · simp only [List.getElem?_cons_succ] at hw hn
        have hi2 : i < rest.length := by
          by_contra hcon
          rw [List.getElem?_eq_none (by omega)] at hn
          exact Option.noConfusion hn
        have hni : rest[i] = n := by
          rw [List.getElem?_eq_getElem hi2] at hn
          exact Option.some.injEq _ _ ▸ hn
        rw [key i hi2] at hw
        split at hw
        · have hwv : (S + 1) * 1000 - rest[i] = w := by
            simpa using hw
          have hmem : rest[i] ∈ rest := List.getElem_mem hi2
          have hdiv : n / 1000 = S := by rw [← hni]; exact hrest _ hmem
          have hlt : n < (S + 1) * 1000 := by
            have := (Nat.div_lt_iff_lt_mul (by norm_num : 0 < 1000)).mp
              (by omega : n / 1000 < S + 1)
            omega
          omega
        · simp at hw

/-- Witness for `C3_rate_limiter`: three calls in second 1 with maximum 2. -/
theorem C3_rate_limiter_witness :
    (∀ N : ℕ, (2 : ℚ) = (N : ℚ) → 1 ≤ N → ∀ i, i < [1000, 1100, 1200].length →
        ((limitRun 2 ⟨0, 0⟩ [1000, 1100, 1200]).2[i]? = some none ↔ i < N)) ∧
    ((2 : ℚ) < 1 → ∀ i, i < [1000, 1100, 1200].length →
        ((limitRun 2 ⟨0, 0⟩ [1000, 1100, 1200]).2[i]? = some none ↔ i = 0)) ∧
    (∀ (i n w : Nat), [1000, 1100, 1200][i]? = some n →
        (limitRun 2 ⟨0, 0⟩ [1000, 1100, 1200]).2[i]? = some (some w) →
        n + w = (1 + 1) * 1000) :=
  C3_rate_limiter 2 ⟨0, 0⟩ 1 [1000, 1100, 1200] (by decide) (by decide)

/-! ## The `_fetch` retry pipeline -/

/-- What one physical HTTP attempt yields to the code: the response status and
the parsed JSON body (`none` when `response.json()` rejects, i.e. the body is
unparsable or empty). -/
structure PhysResponse where
  status : Nat
  jsonBody : Option JSValue

/-- The node-fetch `Response.ok` flag: status in the range 200–299. -/
def respOk (status : Nat) : Bool := 200 ≤ status && status < 300

/-- The `Response` envelope the library returns:
`{ ok: boolean, status?: number, json?: T }`. -/
structure Response (T : Type) where
  ok : Bool
  status : Option Nat := none
  json : Option T := none

/-- Lines 124–130 of the source, reached on any non-429 status: reset the
cooldown (handled by the caller), then `{ok: true, status, json}` when the
body parses, and `{ok: response.ok, status}` with no body when it does not. -/
def terminalResponse (p : PhysResponse) : Response JSValue :=
  match p.jsonBody with
  | some j => { ok := true, status := some p.status, json := some j }
  | none => { ok := respOk p.status, status := some p.status, json := none }

/-- The wall-clock instants of one physical attempt: `pre` is `Date.now()`
when the abort timer is set (line 102), `arrive` is when the transport
settles, `chk` is `Date.now()` at the 429 check (line 115);
`pre ≤ arrive ≤ chk` in any real trace. -/
structure Attempt where
  pre : Nat
  arrive : Nat
  chk : Nat
  phys : PhysResponse

/-- The configured timeout: `none` models the default `Infinity`
("effectively unbounded"). -/
abbrev Timeout := Option Nat

/-- The comparison `duration > this._timeout`: always false against
`Infinity`. -/
def gtTimeout (duration : Nat) (timeout : Timeout) : Bool :=
  match timeout with
  | none => false
  | some t => duration > t

/-- Largest delay `setTimeout` accepts without clamping (2^31 - 1 ms). -/
def TIMEOUT_MAX : Nat := 2147483647

/-- The delay actually armed by `setTimeout(() => controller.abort(),
this._timeout - (Date.now() - startTime))` on line 102.  Node clamps any
delay outside `[1, TIMEOUT_MAX]` — including `Infinity`, the default
`this._timeout` — to 1 ms. -/
def effDelay (timeout : Timeout) (startTime pre : Nat) : Nat :=
  match timeout with
  | none => 1
  | some t =>
    let raw : Int := (t : Int) - ((pre : Int) - (startTime : Int))
    if raw < 1 || raw > (TIMEOUT_MAX : Int) then 1 else raw.toNat

/-- Whether the abort timer fires before the transport settles, in which case
the fetch rejects with `AbortError` and line 108 throws the timeout error. -/
def aborts (timeout : Timeout) (startTime : Nat) (a : Attempt) : Bool :=
  a.pre + effDelay timeout startTime a.pre < a.arrive

/-- The exceptions the pipeline can throw: the abort-timeout string of
line 108, the still-rate-limited timeout string of line 117 (carrying the
measured duration), and the `TypeError` raised by a property access on
`null`/`undefined` in `_updateToken`/`_fetch`. -/
inductive FetchError where
  | abortTimeout
  | rateLimitTimeout (duration : Nat)
  | tokenTypeError

/-- Result of running a logical request against a finite trace of physical
attempts: a returned envelope, a thrown error, or `incomplete` when the trace
ran out while the loop would still retry. -/
inductive FetchOutcome where
  | success (r : Response JSValue)
  | failure (e : FetchError)
  | incomplete

/-- The `_fetch` loop as executed for the token-grant request
(`isTokenUpdateRequest = true`, so no token step).  Arguments: the configured
timeout, the cooldown base (`_startCooldown`) and growth factor, the logical
`startTime` of the logical request, the attempt trace, and the instance cooldown at entry.
Returns the outcome, the instance cooldown afterwards, and the list of
backoff sleeps performed (each 429 within budget sleeps the current cooldown,
then doubles it; any other status resets the cooldown to the base). -/
def fetchTokenReq (timeout : Timeout) (base factor startTime : Nat) :
    List Attempt → Nat → FetchOutcome × Nat × List Nat
  | [], cd => (.incomplete, cd, [])
  | a :: rest, cd =>
    if aborts timeout startTime a then (.failure .abortTimeout, cd, [])
    else if a.phys.status = 429 then
      if gtTimeout (a.chk - startTime) timeout then
        (.failure (.rateLimitTimeout (a.chk - startTime)), cd, [])
      else
        let q := fetchTokenReq timeout base factor startTime rest (cd * factor)
        (q.1, q.2.1, cd :: q.2.2)
    else (.success (terminalResponse a.phys), base, [])

/-! ## TokenManager (`_updateToken`) -/

/-- The token-related mutable fields of the `API` instance: `_accessToken`
(`none` models both the initial `null` and `undefined`), `_accessTokenExpiry`
(`none` models `NaN`, the initial value is `some (-1)`), and `_cooldown`. -/
structure APIState where
  accessToken : Option JSValue
  accessTokenExpiry : Option Int
  cooldown : Nat

/-- The token/cooldown state set by the `API` constructor:
`_accessToken = null`, `_accessTokenExpiry = -1`, `_cooldown = base`. -/
def initialAPIState (base : Nat) : APIState :=
  { accessToken := none, accessTokenExpiry := some (-1), cooldown := base }

/-- Negation of the early return `if (this._accessTokenExpiry > Date.now() +
60 * 1000) return` on line 134: a grant is performed unless the stored expiry
strictly exceeds now + 60 s (a `NaN` expiry never does). -/
def needsRefresh (expiry : Option Int) (now : Nat) : Bool :=
  match expiry with
  | some e => e ≤ (now : Int) + 60000
  | none => true

/-- Inputs consumed by one `_updateToken` call that performs a grant:
`start` is the `Date.now()` default `startTime` of the inner `_fetch`,
`attempts` its physical trace, `storeNow` the `Date.now()` read on line 144
when the absolute expiry is computed. -/
structure GrantInput where
  start : Nat
  attempts : List Attempt
  storeNow : Nat

/-- Outcome of `_updateToken`: returned without a grant, returned after
storing a token, threw, or the grant trace was exhausted.  Each carries the
instance state afterwards (the shared `_cooldown` mutates even on throws). -/
inductive UTOutcome where
  | noGrant (st : APIState)
  | granted (st : APIState)
  | threw (e : FetchError) (st : APIState)
  | incomplete (st : APIState)

/-- The absolute expiry computed on line 144,
`Date.now() + this._accessToken!.expires_in * 1000`, where a missing or
non-numeric `expires_in` makes the arithmetic `NaN` (`none`). -/
def grantExpiry (storeNow : Nat) (field : Option JSValue) : Option Int :=
  match field with
  | none => none
  | some v => (toNumber v).map (fun n => (storeNow : Int) + n * 1000)

/-- `_updateToken` (lines 133–146).  If the cached expiry is more than 60 s
ahead of `checkNow`, return at once.  Otherwise run the grant request through
the same `_fetch` loop (token flag set, its own fresh `startTime`); a thrown
error propagates; otherwise the `json` field of the response is stored as the
token unconditionally (the source casts it to `AccessToken` without any
check), and reading `expires_in` off a missing or `null` body throws a
`TypeError` after the assignment, exactly as the source would. -/
def updateToken (timeout : Timeout) (base factor : Nat) (st : APIState)
    (checkNow : Nat) (g : GrantInput) : UTOutcome × List Nat :=
  if needsRefresh st.accessTokenExpiry checkNow = false then (UTOutcome.noGrant st, [])
  else
    match fetchTokenReq timeout base factor g.start g.attempts st.cooldown with
    | (.failure e, cd, sleeps) => (UTOutcome.threw e { st with cooldown := cd }, sleeps)
    | (.incomplete, cd, sleeps) => (UTOutcome.incomplete { st with cooldown := cd }, sleeps)
    | (.success r, cd, sleeps) =>
      match r.json with
      | none =>
        (UTOutcome.threw FetchError.tokenTypeError
          { accessToken := none, accessTokenExpiry := st.accessTokenExpiry,
            cooldown := cd }, sleeps)
      | some tok =>
        match getFieldJS tok ("expires_in") with
        | Except.error _ =>
          (UTOutcome.threw FetchError.tokenTypeError
            { accessToken := some tok, accessTokenExpiry := st.accessTokenExpiry,
              cooldown := cd }, sleeps)
        | Except.ok fv =>
          (UTOutcome.granted
            { accessToken := some tok,
              accessTokenExpiry := grantExpiry g.storeNow fv,
              cooldown := cd }, sleeps)

/-! ## `_fetch` for protected requests -/

/-- The value attached as `Authorization: Bearer ...`: the source reads
`this._accessToken!.access_token`, which throws a `TypeError` when the stored
token is `null`/`undefined` and yields `undefined` (so the literal header
text Bearer undefined) when the stored value has no such field. -/
def attachVal : Option JSValue → Except Unit (Option JSValue)
  | none => Except.error ()
  | some t => getFieldJS t ("access_token")

/-- Observable steps of one protected logical request, in execution order.
`tokenCheck b` is the `_updateToken` call (with `b` true when it performed a
grant), `attachAuth v` records the token value placed in the Authorization
header (`none` = the literal Bearer undefined), `limiterCall` the `limit()` await,
`httpAttempt s` a physical attempt returning status `s`, `sleepStep ms` a
backoff sleep.  The steps of a nested grant request are summarised by its
`tokenCheck`. -/
inductive Step where
  | tokenCheck (refreshed : Bool)
  | attachAuth (tok : Option JSValue)
  | limiterCall
  | httpAttempt (status : Nat)
  | sleepStep (ms : Nat)

/-- Inputs consumed by one iteration of the protected `_fetch` loop:
the `Date.now()` of the `_updateToken` expiry check, the grant inputs (used
only when a refresh happens), and the physical attempt of the iteration. -/
structure MainAttempt where
  checkNow : Nat
  grant : GrantInput
  att : Attempt

/-- One iteration of the protected `_fetch` after `_updateToken` has
succeeded (lines 91–130): attach the bearer token (which can itself throw a
`TypeError`), await the limiter, run the attempt with the abort timer armed,
then either throw on abort, throw on a 429 past the timeout, sleep and retry
via the continuation `k` (cooldown doubled after the sleep), or return the
terminal envelope with the cooldown reset to the base. -/
def mainStep (timeout : Timeout) (base factor startTime : Nat) (refreshed : Bool)
    (st : APIState) (ma : MainAttempt)
    (k : APIState → FetchOutcome × APIState × List Step) :
    FetchOutcome × APIState × List Step :=
  match attachVal st.accessToken with
  | Except.error _ =>
    (FetchOutcome.failure FetchError.tokenTypeError, st, [Step.tokenCheck refreshed])
  | Except.ok tv =>
    let steps0 := [Step.tokenCheck refreshed, Step.attachAuth tv, Step.limiterCall]
    if aborts timeout startTime ma.att then
      (FetchOutcome.failure FetchError.abortTimeout, st, steps0)
    else if ma.att.phys.status = 429 then
      if gtTimeout (ma.att.chk - startTime) timeout then
        (FetchOutcome.failure (FetchError.rateLimitTimeout (ma.att.chk - startTime)), st,
          steps0 ++ [Step.httpAttempt 429])
      else
        let q := k { st with cooldown := st.cooldown * factor }
        (q.1, q.2.1, steps0 ++ Step.httpAttempt 429 :: Step.sleepStep st.cooldown :: q.2.2)
    else
      (FetchOutcome.success (terminalResponse ma.att.phys), { st with cooldown := base },
        steps0 ++ [Step.httpAttempt ma.att.phys.status])

/-- The protected `_fetch` (`isTokenUpdateRequest = false`).  Each iteration
first runs `_updateToken` (so every retry re-enters the token step: the
recursion on line 122 calls `_fetch` from the top with the same
`startTime`), then proceeds as `mainStep`.  Returns the outcome, the final
instance state, and the observable step trace. -/
def fetchProtected (timeout : Timeout) (base factor startTime : Nat) :
    List MainAttempt → APIState → FetchOutcome × APIState × List Step
  | [], st => (FetchOutcome.incomplete, st, [])
  | ma :: rest, st =>
    match (updateToken timeout base factor st ma.checkNow ma.grant).1 with
    | UTOutcome.threw e stF => (FetchOutcome.failure e, stF, [Step.tokenCheck true])
    | UTOutcome.incomplete stF => (FetchOutcome.incomplete, stF, [Step.tokenCheck true])
    | UTOutcome.noGrant stH =>
      mainStep timeout base factor startTime false stH ma
        (fun st2 => fetchProtected timeout base factor startTime rest st2)
    | UTOutcome.granted stH =>
      mainStep timeout base factor startTime true stH ma
        (fun st2 => fetchProtected timeout base factor startTime rest st2)

/-! ## `getPaged` -/

/-- Result of the `getPaged` loop: a returned aggregate envelope, a
propagated exception from the `_fetch` of a page, or `incomplete` (the supplied
page trace ran out while the loop would request another page), carrying the
items accumulated so far. -/
inductive PagedResult where
  | ret (r : Response (List JSValue))
  | threw (e : FetchError)
  | incomplete (itemsSoFar : List JSValue)

/-- Observable events of the `getPaged` loop, in order: `request i` is the
GET for `page[number] = i`, `onPageCall r` the synchronous `onPage(response)`
invocation, `append l` the `items = items.concat(response.json)` extending
the accumulator by the elements `l`. -/
inductive PEvent where
  | request (page : Nat)
  | onPageCall (r : Response JSValue)
  | append (elems : List JSValue)

/-- The `getPaged` loop (lines 192–210).  Each iteration requests page `i`
(1-indexed, `i` starts at 1) through the protected `_fetch`, whose result is
the corresponding entry of `pages`.  A non-ok envelope returns
`{ok: false, status, json: items}` at once; an absent or falsy body, or a
body whose `length` property is the number 0, breaks the loop which then
returns `{ok: false, json: items}`; otherwise `onPage` is invoked with the
envelope of the page, its elements are appended, and the loop continues with the
next page number. -/
def getPagedLoop : List FetchOutcome → Nat → List JSValue → PagedResult × List PEvent
  | [], _, items => (PagedResult.incomplete items, [])
  | out :: rest, i, items =>
    match out with
    | FetchOutcome.failure e => (PagedResult.threw e, [PEvent.request i])
    | FetchOutcome.incomplete => (PagedResult.incomplete items, [PEvent.request i])
    | FetchOutcome.success r =>
      if r.ok = false then
        (PagedResult.ret { ok := false, status := r.status, json := some items },
          [PEvent.request i])
      else
        match r.json with
        | none =>
          (PagedResult.ret { ok := false, status := none, json := some items },
            [PEvent.request i])
        | some j =>
          if j.truthy = false then
            (PagedResult.ret { ok := false, status := none, json := some items },
              [PEvent.request i])
          else if j.lengthIsZero then
            (PagedResult.ret { ok := false, status := none, json := some items },
              [PEvent.request i])
          else
            let q := getPagedLoop rest (i + 1) (items ++ concatElems j)
            (q.1, PEvent.request i :: PEvent.onPageCall r :: PEvent.append (concatElems j) :: q.2)

/-- The loop-continuation condition of `getPaged`, read off lines 199–207:
the fetch of the page returned an envelope that is ok, with a truthy body whose
`length` property is not the number 0. -/
def continues (out : FetchOutcome) : Bool :=
  match out with
  | FetchOutcome.success r =>
    r.ok && (match r.json with
             | some j => j.truthy && !j.lengthIsZero
             | none => false)
  | _ => false

/-- The elements the outcome of a page contributes to the accumulator when the
loop continues past it. -/
def outBodyElems : FetchOutcome → List JSValue
  | FetchOutcome.success r =>
    (match r.json with
     | some j => concatElems j
     | none => [])
  | _ => []

/-- The `append` events of a `getPaged` event trace, i.e. the successive
extensions of the accumulator. -/
def appendsOf (evs : List PEvent) : List (List JSValue) :=
  evs.filterMap (fun e => match e with | PEvent.append l => some l | _ => none)

/-! ## Claim C1 — the envelope invariant -/

theorem mainStep_success_shape (timeout : Timeout) (base factor startTime : Nat)
    (refreshed : Bool) (st : APIState) (ma : MainAttempt)
    (k : APIState → FetchOutcome × APIState × List Step) (r : Response JSValue)
    (hk : ∀ st2 r2, (k st2).1 = FetchOutcome.success r2 → ∃ p, r2 = terminalResponse p)
    (h : (mainStep timeout base factor startTime refreshed st ma k).1 =
      FetchOutcome.success r) :
    ∃ p : PhysResponse, r = terminalResponse p := by
  unfold mainStep at h
  cases hav : attachVal st.accessToken with
  | error u => rw [hav] at h; simp at h
  | ok tv =>
    rw [hav] at h
    simp only at h
    split at h
    · simp at h
    · split at h
      · split at h
        · simp at h
        · exact hk _ _ h
      · exact ⟨ma.att.phys, by simpa using h.symm⟩

theorem fetchProtected_success_shape (timeout : Timeout) (base factor startTime : Nat)
    (mas : List MainAttempt) :
    ∀ (st : APIState) (r : Response JSValue),
      (fetchProtected timeout base factor startTime mas st).1 = FetchOutcome.success r →
      ∃ p : PhysResponse, r = terminalResponse p := by
  induction mas with
  | nil => intro st r h; simp [fetchProtected] at h
  | cons ma rest ih =>
    intro st r h
    unfold fetchProtected at h
    cases hut : (updateToken timeout base factor st ma.checkNow ma.grant).1 with
    | threw e stF => rw [hut] at h; simp at h
    | incomplete stF => rw [hut] at h; simp at h
    | noGrant stH =>
      rw [hut] at h
      exact mainStep_success_shape timeout base factor startTime false stH ma _ r
        (fun st2 r2 h2 => ih st2 r2 h2) h
    | granted stH =>
      rw [hut] at h
      exact mainStep_success_shape timeout base factor startTime true stH ma _ r
        (fun st2 r2 h2 => ih st2 r2 h2) h

/-- C1 (amended): whenever the protected request pipeline completes with an
envelope, `ok = true` implies the parsed JSON body is present or the terminal
status is a 2xx success status, and `ok = false` implies the body is absent
(unparsable) and the terminal status is a non-2xx status.  (The original
claim — `ok = true` implies the body is present and the status non-error — is
refuted by `C1_counterexample`: a parsed body forces `ok = true` even for a
500 status, and a bodyless 2xx also yields `ok = true`.) -/
theorem C1_envelope (timeout : Timeout) (base factor startTime : Nat)
    (mas : List MainAttempt) (st : APIState) (r : Response JSValue)
    (h : (fetchProtected timeout base factor startTime mas st).1 =
      FetchOutcome.success r) :
    (r.ok = true → r.json.isSome = true ∨ ∃ c, r.status = some c ∧ respOk c = true) ∧
    (r.ok = false → r.json = none ∧ ∃ c, r.status = some c ∧ respOk c = false) := by
  obtain ⟨p, rfl⟩ := fetchProtected_success_shape timeout base factor startTime mas st r h

  cases hj : p.jsonBody with
  | some j => simp [terminalResponse, hj]
  | none =>
    cases hok : respOk p.status with
    | false => simp [terminalResponse, hj, hok]
    | true => simp [terminalResponse, hj, hok]

/-- An instance state holding a valid, far-future token (used by several
concrete runs below). -/
def stFresh : APIState :=
  { accessToken := some (JSValue.obj [(("access_token"), JSValue.str ("tok"))]),
    accessTokenExpiry := some 1000000000, cooldown := 1500 }

/-- A protected attempt answered instantly with 204 No Content and an
unparsable (empty) body. -/
def w1ma : MainAttempt :=
  { checkNow := 1000, grant := { start := 1000, attempts := [], storeNow := 1000 },
    att := { pre := 1000, arrive := 1000, chk := 1000,
             phys := { status := 204, jsonBody := none } } }

/-- Witness for `C1_envelope`: a 204 response with no parsable body. -/
theorem C1_envelope_witness :
    (({ ok := true, status := some 204, json := none } : Response JSValue).ok = true →
      ({ ok := true, status := some 204, json := none } : Response JSValue).json.isSome = true ∨
      ∃ c, ({ ok := true, status := some 204, json := none } : Response JSValue).status = some c ∧
        respOk c = true) ∧
    (({ ok := true, status := some 204, json := none } : Response JSValue).ok = false →
      ({ ok := true, status := some 204, json := none } : Response JSValue).json = none ∧
      ∃ c, ({ ok := true, status := some 204, json := none } : Response JSValue).status = some c ∧
        respOk c = false) :=
  C1_envelope (some 100000) 1500 2 1000 [w1ma] stFresh
    { ok := true, status := some 204, json := none } rfl

/-- The notion of a non-error HTTP status used by the claim (stated from the
words of the spec, for comparison only): statuses below the 4xx/5xx error
classes. -/
def specNonErrorStatus (c : Nat) : Bool := c < 400

/-- A 500 Internal Server Error response carrying a parsable JSON body. -/
def ce1body : JSValue := JSValue.obj [(("error"), JSValue.str ("oops"))]

/-- A protected attempt answered instantly with status 500 and a JSON body. -/
def ce1ma : MainAttempt :=
  { checkNow := 1000, grant := { start := 1000, attempts := [], storeNow := 1000 },
    att := { pre := 1000, arrive := 1000, chk := 1000,
             phys := { status := 500, jsonBody := some ce1body } } }

/-- C1 (counterexample): a terminal 500 response whose body parses as JSON
yields the envelope `{ok: true, status: 500, json: body}` — `ok = true` with
an error status, contradicting the claim that `ok = true` implies the status
is a non-error HTTP status. -/
theorem C1_counterexample :
    (fetchProtected (some 100000) 1500 2 1000 [ce1ma] stFresh).1 =
      FetchOutcome.success { ok := true, status := some 500, json := some ce1body } ∧
    specNonErrorStatus 500 = false :=
  ⟨rfl, rfl⟩

/-! ## Claim C2 — the timeout behaviour under the default configuration -/

/-- A protected attempt under a fresh token whose response (200, JSON body)
settles 500 ms after the abort timer is armed. -/
def ce2ma : MainAttempt :=
  { checkNow := 1000, grant := { start := 1000, attempts := [], storeNow := 1000 },
    att := { pre := 1000, arrive := 1500, chk := 1500,
             phys := { status := 200, jsonBody := some (JSValue.obj []) } } }

/-- C2 (code bug): under the default configuration (`timeout = Infinity`,
modelled as `none`), the delay `Infinity - elapsed` passed to `setTimeout` is
clamped by Node to 1 ms, so the abort timer fires 1 ms after the fetch
starts: a perfectly healthy request whose 200 response arrives 500 ms later
is aborted and the pipeline throws its Timeout error — contradicting the
claim that under the default configuration no request ever fails with a
Timeout error (and the claimed equivalence between Timeout failures and the
elapsed time exceeding the configured timeout, which here is never
exceeded). -/
theorem C2_default_timeout_bug :
    fetchProtected none 1500 2 1000 [ce2ma] stFresh =
      (FetchOutcome.failure FetchError.abortTimeout, stFresh,
       [Step.tokenCheck false,
        Step.attachAuth (some (JSValue.str ("tok"))),
        Step.limiterCall]) :=
  rfl

/-! ## Unfolding lemmas for single iterations of the protected loop -/

theorem updateToken_noGrant (timeout : Timeout) (base factor : Nat) (st : APIState)
    (checkNow : Nat) (g : GrantInput)
    (h : needsRefresh st.accessTokenExpiry checkNow = false) :
    (updateToken timeout base factor st checkNow g).1 = UTOutcome.noGrant st := by
  unfold updateToken
  rw [if_pos h]

theorem fetchProtected_cons (timeout : Timeout) (base factor startTime : Nat)
    (ma : MainAttempt) (rest : List MainAttempt) (st : APIState) :
    fetchProtected timeout base factor startTime (ma :: rest) st =
      (match (updateToken timeout base factor st ma.checkNow ma.grant).1 with
       | UTOutcome.threw e stF => (FetchOutcome.failure e, stF, [Step.tokenCheck true])
       | UTOutcome.incomplete stF => (FetchOutcome.incomplete, stF, [Step.tokenCheck true])
       | UTOutcome.noGrant stH =>
         mainStep timeout base factor startTime false stH ma
           (fun st2 => fetchProtected timeout base factor startTime rest st2)
       | UTOutcome.granted stH =>
         mainStep timeout base factor startTime true stH ma
           (fun st2 => fetchProtected timeout base factor startTime rest st2)) := rfl

theorem fetchProtected_cons_abort (timeout : Timeout) (base factor startTime : Nat)
    (ma : MainAttempt) (rest : List MainAttempt) (st : APIState) (tv : Option JSValue)
    (hng : needsRefresh st.accessTokenExpiry ma.checkNow = false)
    (hat : attachVal st.accessToken = Except.ok tv)
    (hab : aborts timeout startTime ma.att = true) :
    fetchProtected timeout base factor startTime (ma :: rest) st =
      (FetchOutcome.failure FetchError.abortTimeout, st,
       [Step.tokenCheck false, Step.attachAuth tv, Step.limiterCall]) := by
  rw [fetchProtected_cons]
  rw [updateToken_noGrant timeout base factor st ma.checkNow ma.grant hng]
  dsimp only
  unfold mainStep
  rw [hat]
  simp [hab]

theorem fetchProtected_cons_429timeout (timeout : Timeout) (base factor startTime : Nat)
    (ma : MainAttempt) (rest : List MainAttempt) (st : APIState) (tv : Option JSValue)
    (hng : needsRefresh st.accessTokenExpiry ma.checkNow = false)
    (hat : attachVal st.accessToken = Except.ok tv)
    (hab : aborts timeout startTime ma.att = false)
    (hs : ma.att.phys.status = 429)
    (ht : gtTimeout (ma.att.chk - startTime) timeout = true) :
    fetchProtected timeout base factor startTime (ma :: rest) st =
      (FetchOutcome.failure (FetchError.rateLimitTimeout (ma.att.chk - startTime)), st,
       [Step.tokenCheck false, Step.attachAuth tv, Step.limiterCall,
        Step.httpAttempt 429]) := by
  rw [fetchProtected_cons]
  rw [updateToken_noGrant timeout base factor st ma.checkNow ma.grant hng]
  dsimp only
  unfold mainStep
  rw [hat]
  simp [hab, hs, ht]

theorem fetchProtected_cons_429 (timeout : Timeout) (base factor startTime : Nat)
    (ma : MainAttempt) (rest : List MainAttempt) (st : APIState) (tv : Option JSValue)
    (hng : needsRefresh st.accessTokenExpiry ma.checkNow = false)
    (hat : attachVal st.accessToken = Except.ok tv)
    (hab : aborts timeout startTime ma.att = false)
    (hs : ma.att.phys.status = 429)
    (ht : gtTimeout (ma.att.chk - startTime) timeout = false) :
    fetchProtected timeout base factor startTime (ma :: rest) st =
      ((fetchProtected timeout base factor startTime rest
          { st with cooldown := st.cooldown * factor }).1,
       (fetchProtected timeout base factor startTime rest
          { st with cooldown := st.cooldown * factor }).2.1,
       Step.tokenCheck false :: Step.attachAuth tv :: Step.limiterCall ::
         Step.httpAttempt 429 :: Step.sleepStep st.cooldown ::
         (fetchProtected timeout base factor startTime rest
            { st with cooldown := st.cooldown * factor }).2.2) := by
  rw [fetchProtected_cons]
  rw [updateToken_noGrant timeout base factor st ma.checkNow ma.grant hng]
  dsimp only
  unfold mainStep
  rw [hat]
  simp [hab, hs, ht]

theorem fetchProtected_cons_done (timeout : Timeout) (base factor startTime : Nat)
    (ma : MainAttempt) (rest : List MainAttempt) (st : APIState) (tv : Option JSValue)
    (hng : needsRefresh st.accessTokenExpiry ma.checkNow = false)
    (hat : attachVal st.accessToken = Except.ok tv)
    (hab : aborts timeout startTime ma.att = false)
    (hs : ma.att.phys.status ≠ 429) :
    fetchProtected timeout base factor startTime (ma :: rest) st =
      (FetchOutcome.success (terminalResponse ma.att.phys),
       { st with cooldown := base },
       [Step.tokenCheck false, Step.attachAuth tv, Step.limiterCall,
        Step.httpAttempt ma.att.phys.status]) := by
  rw [fetchProtected_cons]
  rw [updateToken_noGrant timeout base factor st ma.checkNow ma.grant hng]
  dsimp only
  unfold mainStep
  rw [hat]
  simp [hab, hs]

/-! ## Claim C6 — failure of the token grant -/

/-- The JSON error body returned by the token endpoint on a rejected
client-credentials grant. -/
def ce6body : JSValue := JSValue.obj [(("error"), JSValue.str ("invalid_client"))]

/-- The JSON body of the protected request that follows. -/
def ce6data : JSValue := JSValue.obj [(("data"), JSValue.num 1)]

/-- A protected request from the initial state (no cached token) whose grant
request is answered 401 with the JSON error body, and whose own attempt is
answered 200. -/
def ce6ma : MainAttempt :=
  { checkNow := 1000,
    grant := { start := 1000,
               attempts := [{ pre := 1000, arrive := 1000, chk := 1000,
                              phys := { status := 401, jsonBody := some ce6body } }],
               storeNow := 1100 },
    att := { pre := 1100, arrive := 1100, chk := 1100,
             phys := { status := 200, jsonBody := some ce6data } } }

/-- C6 (code bug): when the token endpoint rejects the grant with a 401
carrying a JSON error body, `_updateToken` stores that error object as the
access token (its `expires_in` is absent, so the computed expiry is `NaN`),
no error is thrown, the original protected request is sent with
`Authorization: Bearer undefined` (the `attachAuth none` step), and its
response is returned as a success — contradicting the claim that a failed
grant propagates as a fatal error, that no partial token is stored, and that
no protected request is attempted without a valid token. -/
theorem C6_grant_failure_bug :
    fetchProtected (some 100000) 1500 2 1000 [ce6ma] (initialAPIState 1500) =
      (FetchOutcome.success { ok := true, status := some 200, json := some ce6data },
       { accessToken := some ce6body, accessTokenExpiry := none, cooldown := 1500 },
       [Step.tokenCheck true, Step.attachAuth none, Step.limiterCall,
        Step.httpAttempt 200]) :=
  rfl

/-! ## Claim C4 — backoff on [429, 429, 200] and the retry re-entry point -/

/-- A protected attempt hitting 429, with the timer armed and the response
settled at instant `p` and the 429 check read at instant `c`. -/
def mk429ma (p c : Nat) : MainAttempt :=
  { checkNow := p, grant := { start := p, attempts := [], storeNow := p },
    att := { pre := p, arrive := p, chk := c,
             phys := { status := 429, jsonBody := none } } }

/-- A protected attempt answered 200 (JSON body) instantly at instant `p`. -/
def mk200ma (p : Nat) : MainAttempt :=
  { checkNow := p, grant := { start := p, attempts := [], storeNow := p },
    att := { pre := p, arrive := p, chk := p,
             phys := { status := 200, jsonBody := some (JSValue.obj []) } } }

/-- C4 (counterexample): in a concrete [429, 429, 200] run, the step
immediately after the first backoff sleep (index 4 of the step trace) is the
`_updateToken` token check at index 5 — the recursion on line 122 re-enters
`_fetch` from the top, so each retry re-runs the token-attachment step first,
not the rate-limiter step as the claim asserts (resumes from the
rate-limiter step, step 2, not from the token-attachment step). -/
theorem C4_counterexample :
    ((fetchProtected (some 1000000) 1500 2 0
        [mk429ma 0 10, mk429ma 1510 1520, mk200ma 4520] stFresh).2.2)[4]? =
      some (Step.sleepStep 1500) ∧
    ((fetchProtected (some 1000000) 1500 2 0
        [mk429ma 0 10, mk429ma 1510 1520, mk200ma 4520] stFresh).2.2)[5]? =
      some (Step.tokenCheck false) :=
  ⟨rfl, rfl⟩

/-- C4 (amended): on a [429, 429, 200] run (no aborts, both 429 checks within
the timeout budget, cached token valid throughout, cooldown at the base), the
requester sleeps for the base cooldown and then base times the growth factor
before succeeding, resets the cooldown to the base after the 200, and every
retry re-executes the request from the token-check/attachment step (then the
rate limiter) with the same logical `startTime` — the deadline is shared, but
the re-entry point is step 1, not step 2. -/
theorem C4_retry_backoff (timeout : Timeout) (base factor startTime : Nat)
    (ma1 ma2 ma3 : MainAttempt) (st : APIState) (tv : Option JSValue)
    (h1 : needsRefresh st.accessTokenExpiry ma1.checkNow = false)
    (h2 : needsRefresh st.accessTokenExpiry ma2.checkNow = false)
    (h3 : needsRefresh st.accessTokenExpiry ma3.checkNow = false)
    (hat : attachVal st.accessToken = Except.ok tv)
    (ha1 : aborts timeout startTime ma1.att = false)
    (ha2 : aborts timeout startTime ma2.att = false)
    (ha3 : aborts timeout startTime ma3.att = false)
    (hs1 : ma1.att.phys.status = 429)
    (hs2 : ma2.att.phys.status = 429)
    (hs3 : ma3.att.phys.status ≠ 429)
    (ht1 : gtTimeout (ma1.att.chk - startTime) timeout = false)
    (ht2 : gtTimeout (ma2.att.chk - startTime) timeout = false)
    (hcd : st.cooldown = base) :
    fetchProtected timeout base factor startTime [ma1, ma2, ma3] st =
      (FetchOutcome.success (terminalResponse ma3.att.phys),
       { st with cooldown := base },
       [Step.tokenCheck false, Step.attachAuth tv, Step.limiterCall,
        Step.httpAttempt 429, Step.sleepStep base,
        Step.tokenCheck false, Step.attachAuth tv, Step.limiterCall,
        Step.httpAttempt 429, Step.sleepStep (base * factor),
        Step.tokenCheck false, Step.attachAuth tv, Step.limiterCall,
        Step.httpAttempt ma3.att.phys.status]) := by
  rw [fetchProtected_cons_429 timeout base factor startTime ma1 [ma2, ma3] st tv
    h1 hat ha1 hs1 ht1]
  rw [fetchProtected_cons_429 timeout base factor startTime ma2 [ma3]
    { st with cooldown := st.cooldown * factor } tv h2 hat ha2 hs2 ht2]
  dsimp only
  rw [fetchProtected_cons_done timeout base factor startTime ma3 []
    { st with cooldown := st.cooldown * factor * factor } tv h3 hat ha3 hs3]
  dsimp only
  rw [hcd]

/-- Witness for `C4_retry_backoff`: the concrete [429, 429, 200] run of
`C4_counterexample`. -/
theorem C4_retry_backoff_witness :
    fetchProtected (some 1000000) 1500 2 0
        [mk429ma 0 10, mk429ma 1510 1520, mk200ma 4520] stFresh =
      (FetchOutcome.success (terminalResponse (mk200ma 4520).att.phys),
       { stFresh with cooldown := 1500 },
       [Step.tokenCheck false, Step.attachAuth (some (JSValue.str ("tok"))),
        Step.limiterCall, Step.httpAttempt 429, Step.sleepStep 1500,
        Step.tokenCheck false, Step.attachAuth (some (JSValue.str ("tok"))),
        Step.limiterCall, Step.httpAttempt 429, Step.sleepStep (1500 * 2),
        Step.tokenCheck false, Step.attachAuth (some (JSValue.str ("tok"))),
        Step.limiterCall, Step.httpAttempt (mk200ma 4520).att.phys.status]) :=
  C4_retry_backoff (some 1000000) 1500 2 0 (mk429ma 0 10) (mk429ma 1510 1520)
    (mk200ma 4520) stFresh (some (JSValue.str ("tok")))
    rfl rfl rfl rfl rfl rfl rfl rfl rfl (by decide) rfl rfl rfl

/-! ## Claim C5 — when a token grant is issued -/

/-- Whether a step records an `_updateToken` call that performed a grant. -/
def isGrantStep : Step → Bool
  | Step.tokenCheck true => true
  | _ => false

/-- Number of token-grant requests recorded in a step trace. -/
def grantCount (steps : List Step) : Nat := List.countP isGrantStep steps

theorem grantCount_mainStep_nil (timeout : Timeout) (base factor startTime : Nat)
    (refreshed : Bool) (st : APIState) (ma : MainAttempt) :
    grantCount (mainStep timeout base factor startTime refreshed st ma
      (fun st2 => fetchProtected timeout base factor startTime [] st2)).2.2 =
      if refreshed then 1 else 0 := by
  unfold mainStep
  cases hav : attachVal st.accessToken with
  | error u => cases refreshed <;> simp [grantCount, isGrantStep]
  | ok tv =>
    dsimp only
    split
    · cases refreshed <;> simp [grantCount, isGrantStep]
    · split
      · split
        · cases refreshed <;> simp [grantCount, isGrantStep]
        · cases refreshed <;> simp [fetchProtected, grantCount, isGrantStep]
      · cases refreshed <;> simp [grantCount, isGrantStep]

theorem grantCount_single (timeout : Timeout) (base factor startTime : Nat)
    (ma : MainAttempt) (st : APIState) :
    grantCount (fetchProtected timeout base factor startTime [ma] st).2.2 =
      if needsRefresh st.accessTokenExpiry ma.checkNow = true then 1 else 0 := by
  rw [fetchProtected_cons]
  cases hNR : needsRefresh st.accessTokenExpiry ma.checkNow with
  | false =>
    rw [updateToken_noGrant timeout base factor st ma.checkNow ma.grant hNR]
    dsimp only
    rw [grantCount_mainStep_nil]
  | true =>
    unfold updateToken
    rw [if_neg (by simp [hNR])]
    rcases hq : fetchTokenReq timeout base factor ma.grant.start ma.grant.attempts st.cooldown
      with ⟨o, cd, sleeps⟩
    cases o with
    | failure e => simp [hNR, grantCount, isGrantStep]
    | incomplete => simp [hNR, grantCount, isGrantStep]
    | success r =>
      cases hrj : r.json with
      | none => simp [hrj, hNR, grantCount, isGrantStep]
      | some tok =>
        simp only [hrj]
        cases hgf : getFieldJS tok ("expires_in") with
        | error u => simp [hgf, hNR, grantCount, isGrantStep]
        | ok fv =>
          simp only [hgf]
          rw [grantCount_mainStep_nil]
          simp

/-- C5: for a protected request, no token-grant request is issued when the
expiry of the cached token is more than 60 seconds after the current time, and
exactly one grant request is issued when no token is cached (the
`null` token of the constructor with expiry `-1`) or the cached expiry is within
60 seconds of the current time. -/
theorem C5_token_refresh (timeout : Timeout) (base factor startTime : Nat)
    (ma : MainAttempt) (st : APIState) :
    (∀ e : Int, st.accessTokenExpiry = some e → (ma.checkNow : Int) + 60000 < e →
      grantCount (fetchProtected timeout base factor startTime [ma] st).2.2 = 0) ∧
    ((st.accessToken = none ∧ st.accessTokenExpiry = some (-1)) ∨
        (∀ e : Int, st.accessTokenExpiry = some e → e ≤ (ma.checkNow : Int) + 60000) →
      grantCount (fetchProtected timeout base factor startTime [ma] st).2.2 = 1) := by
  constructor
  · intro e he hgt
    have hNR : needsRefresh st.accessTokenExpiry ma.checkNow = false := by
      rw [he]
      simp only [needsRefresh, decide_eq_false_iff_not]
      omega
    rw [grantCount_single, hNR]
    simp
  · intro hc
    have hNR : needsRefresh st.accessTokenExpiry ma.checkNow = true := by
      rcases hc with ⟨_, he⟩ | hall
      · rw [he]
        simp only [needsRefresh, decide_eq_true_eq]
        omega
      · cases hexp : st.accessTokenExpiry with
        | none => simp [needsRefresh]
        | some e =>
          have := hall e hexp
          simp only [needsRefresh, decide_eq_true_eq]
          omega
    rw [grantCount_single, hNR]
    simp

/-! ## Claim C7 — the cooldown is shared instance state -/

/-- The backoff sleep recorded by a step, if any. -/
def sleepOf : Step → Option Nat
  | Step.sleepStep m => some m
  | _ => none

/-- The backoff sleeps of a step trace, in order. -/
def sleepsOf (steps : List Step) : List Nat := steps.filterMap sleepOf

theorem sleepsOf_block (b : Bool) (tv : Option JSValue) (n c : Nat) (L : List Step) :
    sleepsOf (Step.tokenCheck b :: Step.attachAuth tv :: Step.limiterCall ::
      Step.httpAttempt n :: Step.sleepStep c :: L) = c :: sleepsOf L := by
  simp [sleepsOf, sleepOf]

theorem sleepsOf_steps3 (b : Bool) (tv : Option JSValue) :
    sleepsOf [Step.tokenCheck b, Step.attachAuth tv, Step.limiterCall] = [] := by
  simp [sleepsOf, sleepOf]

theorem sleepsOf_steps4 (b : Bool) (tv : Option JSValue) (n : Nat) :
    sleepsOf [Step.tokenCheck b, Step.attachAuth tv, Step.limiterCall,
      Step.httpAttempt n] = [] := by
  simp [sleepsOf, sleepOf]

/-- The third attempt of the first logical call below: a 429 whose check
instant (3050) exceeds the 3000 ms budget measured from `startTime = 0`,
while the response itself settles just before the abort deadline. -/
def c7ma3 : MainAttempt :=
  { checkNow := 2990, grant := { start := 2990, attempts := [], storeNow := 2990 },
    att := { pre := 2990, arrive := 3000, chk := 3050,
             phys := { status := 429, jsonBody := none } } }

/-- C7 (counterexample): a first logical call that sleeps 1500 and 3000 and
then throws the rate-limit timeout leaves the instance cooldown at 6000; a
second logical call on the same instance state then sleeps 6000 — not the
base 1500 — before its first retry, so the 429 history of one call does affect
the first sleep duration of another call, contradicting the claim that the
cooldown starts at the base for every new logical call and is not shared. -/
theorem C7_counterexample :
    (fetchProtected (some 3000) 1500 2 0
        [mk429ma 0 1000, mk429ma 2500 2500, c7ma3] stFresh).1 =
      FetchOutcome.failure (FetchError.rateLimitTimeout 3050) ∧
    (fetchProtected (some 3000) 1500 2 0
        [mk429ma 0 1000, mk429ma 2500 2500, c7ma3] stFresh).2.1.cooldown = 6000 ∧
    ((fetchProtected (some 3000) 1500 2 4000 [mk429ma 4000 4100, mk200ma 10100]
        (fetchProtected (some 3000) 1500 2 0
          [mk429ma 0 1000, mk429ma 2500 2500, c7ma3] stFresh).2.1).2.2)[4]? =
      some (Step.sleepStep 6000) :=
  ⟨rfl, rfl, rfl⟩

/-- C7 (amended): the retry cooldown is per-instance state shared between
logical calls.  For any call whose iterations keep finding the cached token
fresh: the i-th backoff sleep is the instance cooldown at call entry times
factor^i (the first sleep is the inherited instance value, not necessarily
the base); completing with any non-429 outcome resets the cooldown to the
base (which is what isolates consecutive normally-completed calls); but a
call that throws the rate-limit timeout leaves the grown value
entry-cooldown times factor^(number of sleeps) in the instance, which the
next logical call inherits (`C7_counterexample`). -/
theorem C7_cooldown_state (timeout : Timeout) (base factor startTime : Nat)
    (mas : List MainAttempt) :
    ∀ (st : APIState) (tv : Option JSValue),
      (∀ ma ∈ mas, needsRefresh st.accessTokenExpiry ma.checkNow = false) →
      attachVal st.accessToken = Except.ok tv →
      (∀ (i s : Nat),
          (sleepsOf (fetchProtected timeout base factor startTime mas st).2.2)[i]? =
            some s →
          s = st.cooldown * factor ^ i) ∧
      (∀ r : Response JSValue,
          (fetchProtected timeout base factor startTime mas st).1 =
            FetchOutcome.success r →
          (fetchProtected timeout base factor startTime mas st).2.1.cooldown = base) ∧
      (∀ d : Nat,
          (fetchProtected timeout base factor startTime mas st).1 =
            FetchOutcome.failure (FetchError.rateLimitTimeout d) →
          (fetchProtected timeout base factor startTime mas st).2.1.cooldown =
            st.cooldown * factor ^
              (sleepsOf (fetchProtected timeout base factor startTime mas st).2.2).length) := by
  induction mas with
  | nil =>
    intro st tv hng hat
    refine ⟨?_, ?_, ?_⟩
    · intro i s hs; simp [fetchProtected, sleepsOf] at hs
    · intro r hr; simp [fetchProtected] at hr
    · intro d hd; simp [fetchProtected] at hd
  | cons ma rest ih =>
    intro st tv hng hat
    have hngm : needsRefresh st.accessTokenExpiry ma.checkNow = false :=
      hng ma (List.mem_cons_self ma rest)
    have hngr : ∀ m ∈ rest, needsRefresh st.accessTokenExpiry m.checkNow = false :=
      fun m hm => hng m (List.mem_cons_of_mem ma hm)
    cases hab : aborts timeout startTime ma.att with
    | true =>
      rw [fetchProtected_cons_abort timeout base factor startTime ma rest st tv
        hngm hat hab]
      refine ⟨?_, ?_, ?_⟩
      · intro i s hs
        rw [sleepsOf_steps3] at hs
        simp at hs
      · intro r hr; simp at hr
      · intro d hd; simp at hd
    | false =>
      by_cases hs429 : ma.att.phys.status = 429
      · cases ht : gtTimeout (ma.att.chk - startTime) timeout with
        | true =>
          rw [fetchProtected_cons_429timeout timeout base factor startTime ma rest st tv
            hngm hat hab hs429 ht]
          refine ⟨?_, ?_, ?_⟩
          · intro i s hs
            rw [sleepsOf_steps4] at hs
            simp at hs
          · intro r hr; simp at hr
          · intro d hd
            rw [sleepsOf_steps4]
            simp
        | false =>
          rw [fetchProtected_cons_429 timeout base factor startTime ma rest st tv
            hngm hat hab hs429 ht]
          have IH := ih { st with cooldown := st.cooldown * factor } tv hngr hat
          have IH1 : ∀ (i s : Nat),
              (sleepsOf (fetchProtected timeout base factor startTime rest
                { st with cooldown := st.cooldown * factor }).2.2)[i]? = some s →
              s = st.cooldown * factor * factor ^ i := IH.1
          have IH2 : ∀ r : Response JSValue,
              (fetchProtected timeout base factor startTime rest
                { st with cooldown := st.cooldown * factor }).1 =
                FetchOutcome.success r →
              (fetchProtected timeout base factor startTime rest
                { st with cooldown := st.cooldown * factor }).2.1.cooldown = base :=
            IH.2.1
          have IH3 : ∀ d : Nat,
              (fetchProtected timeout base factor startTime rest
                { st with cooldown := st.cooldown * factor }).1 =
                FetchOutcome.failure (FetchError.rateLimitTimeout d) →
              (fetchProtected timeout base factor startTime rest
                { st with cooldown := st.cooldown * factor }).2.1.cooldown =
                st.cooldown * factor * factor ^
                  (sleepsOf (fetchProtected timeout base factor startTime rest
                    { st with cooldown := st.cooldown * factor }).2.2).length :=
            IH.2.2
          refine ⟨?_, ?_, ?_⟩
          · intro i s hs
            rw [sleepsOf_block] at hs
            rcases i with _ | i
            · simp only [List.getElem?_cons_zero, Option.some.injEq] at hs
              rw [← hs, pow_zero, Nat.mul_one]
            · simp only [List.getElem?_cons_succ] at hs
              rw [IH1 i s hs, pow_succ]
              ring
          · intro r hr
            exact IH2 r hr
          · intro d hd
            rw [sleepsOf_block, List.length_cons, IH3 d hd, pow_succ]
            ring
      · rw [fetchProtected_cons_done timeout base factor startTime ma rest st tv
          hngm hat hab hs429]
        refine ⟨?_, ?_, ?_⟩
        · intro i s hs
          rw [sleepsOf_steps4] at hs
          simp at hs
        · intro r hr; rfl
        · intro d hd; simp at hd

/-- An instance state with a fresh token and an inherited non-base
cooldown. -/
def c7wst : APIState :=
  { accessToken := some (JSValue.obj [(("access_token"), JSValue.str ("tok"))]),
    accessTokenExpiry := some 1000000000, cooldown := 4321 }

/-- Witness for `C7_cooldown_state`: a [429, 200] call entered with inherited
cooldown 4321. -/
theorem C7_cooldown_state_witness :
    (∀ (i s : Nat),
        (sleepsOf (fetchProtected (some 100000) 1500 2 0
          [mk429ma 0 1000, mk200ma 2000] c7wst).2.2)[i]? = some s →
        s = c7wst.cooldown * 2 ^ i) ∧
    (∀ r : Response JSValue,
        (fetchProtected (some 100000) 1500 2 0
          [mk429ma 0 1000, mk200ma 2000] c7wst).1 = FetchOutcome.success r →
        (fetchProtected (some 100000) 1500 2 0
          [mk429ma 0 1000, mk200ma 2000] c7wst).2.1.cooldown = 1500) ∧
    (∀ d : Nat,
        (fetchProtected (some 100000) 1500 2 0
          [mk429ma 0 1000, mk200ma 2000] c7wst).1 =
          FetchOutcome.failure (FetchError.rateLimitTimeout d) →
        (fetchProtected (some 100000) 1500 2 0
          [mk429ma 0 1000, mk200ma 2000] c7wst).2.1.cooldown =
          c7wst.cooldown * 2 ^
            (sleepsOf (fetchProtected (some 100000) 1500 2 0
              [mk429ma 0 1000, mk200ma 2000] c7wst).2.2).length) :=
  C7_cooldown_state (some 100000) 1500 2 0 [mk429ma 0 1000, mk200ma 2000] c7wst
    (some (JSValue.str ("tok"))) (by decide) rfl

/-- Witness for `C5_token_refresh`: a fresh-token request issues no grant; a
request from the initial (tokenless) state issues exactly one. -/
theorem C5_token_refresh_witness :
    grantCount (fetchProtected (some 100000) 1500 2 1000 [w1ma] stFresh).2.2 = 0 ∧
    grantCount
      (fetchProtected (some 100000) 1500 2 1000 [ce6ma] (initialAPIState 1500)).2.2 = 1 :=
  ⟨(C5_token_refresh (some 100000) 1500 2 1000 w1ma stFresh).1 1000000000 rfl (by decide),
   (C5_token_refresh (some 100000) 1500 2 1000 ce6ma (initialAPIState 1500)).2
     (Or.inl ⟨rfl, rfl⟩)⟩

/-! ## Case equations for one iteration of the pagination loop -/

theorem getPagedLoop_cons_notOk (resp : Response JSValue) (rest : List FetchOutcome)
    (i : Nat) (items : List JSValue) (hok : resp.ok = false) :
    getPagedLoop (FetchOutcome.success resp :: rest) i items =
      (PagedResult.ret { ok := false, status := resp.status, json := some items },
       [PEvent.request i]) := by
  simp only [getPagedLoop]
  rw [if_pos hok]

theorem getPagedLoop_cons_noBody (resp : Response JSValue) (rest : List FetchOutcome)
    (i : Nat) (items : List JSValue) (hok : resp.ok = true) (hj : resp.json = none) :
    getPagedLoop (FetchOutcome.success resp :: rest) i items =
      (PagedResult.ret { ok := false, status := none, json := some items },
       [PEvent.request i]) := by
  simp only [getPagedLoop]
  rw [if_neg (by simp [hok]), hj]

theorem getPagedLoop_cons_falsy (resp : Response JSValue) (j : JSValue)
    (rest : List FetchOutcome) (i : Nat) (items : List JSValue)
    (hok : resp.ok = true) (hj : resp.json = some j) (htr : j.truthy = false) :
    getPagedLoop (FetchOutcome.success resp :: rest) i items =
      (PagedResult.ret { ok := false, status := none, json := some items },
       [PEvent.request i]) := by
  simp only [getPagedLoop]
  rw [if_neg (by simp [hok]), hj]
  dsimp only
  rw [if_pos htr]

theorem getPagedLoop_cons_lenZero (resp : Response JSValue) (j : JSValue)
    (rest : List FetchOutcome) (i : Nat) (items : List JSValue)
    (hok : resp.ok = true) (hj : resp.json = some j) (htr : j.truthy = true)
    (hlz : j.lengthIsZero = true) :
    getPagedLoop (FetchOutcome.success resp :: rest) i items =
      (PagedResult.ret { ok := false, status := none, json := some items },
       [PEvent.request i]) := by
  simp only [getPagedLoop]
  rw [if_neg (by simp [hok]), hj]
  dsimp only
  rw [if_neg (by simp [htr]), if_pos hlz]

theorem getPagedLoop_cons_continue (resp : Response JSValue) (j : JSValue)
    (rest : List FetchOutcome) (i : Nat) (items : List JSValue)
    (hok : resp.ok = true) (hj : resp.json = some j) (htr : j.truthy = true)
    (hlz : j.lengthIsZero = false) :
    getPagedLoop (FetchOutcome.success resp :: rest) i items =
      ((getPagedLoop rest (i + 1) (items ++ concatElems j)).1,
       PEvent.request i :: PEvent.onPageCall resp :: PEvent.append (concatElems j) ::
         (getPagedLoop rest (i + 1) (items ++ concatElems j)).2) := by
  simp only [getPagedLoop]
  rw [if_neg (by simp [hok]), hj]
  dsimp only
  rw [if_neg (by simp [htr]), if_neg (by simp [hlz])]

/-! ## Claim C8 — pagination over non-empty pages -/

/-- The envelope of an ok page whose JSON body is the array `l`. -/
def pageResp (l : List JSValue) : Response JSValue :=
  { ok := true, status := some 200, json := some (JSValue.arr l) }

/-- The fetch outcome of an ok page whose JSON body is the array `l`. -/
def mkPage (l : List JSValue) : FetchOutcome := FetchOutcome.success (pageResp l)

/-- The expected event trace of the pagination loop over non-empty array
pages starting at page number `i`: request, onPage, append for each page,
then the final request that meets the empty page. -/
def pagedEvents : Nat → List (List JSValue) → List PEvent
  | i, [] => [PEvent.request i]
  | i, l :: ls =>
    PEvent.request i :: PEvent.onPageCall (pageResp l) :: PEvent.append l ::
      pagedEvents (i + 1) ls

theorem lengthIsZero_arr_cons (a : JSValue) (l : List JSValue) :
    (JSValue.arr (a :: l)).lengthIsZero = false := rfl

theorem getPaged_pages (ls : List (List JSValue)) :
    ∀ (i : Nat) (items : List JSValue), (∀ l ∈ ls, l ≠ []) →
      getPagedLoop (ls.map mkPage ++ [mkPage []]) i items =
        (PagedResult.ret
           { ok := false, status := none, json := some (items ++ ls.flatten) },
         pagedEvents i ls) := by
  induction ls with
  | nil =>
    intro i items _
    simp [getPagedLoop, mkPage, pageResp, pagedEvents, JSValue.truthy,
      JSValue.lengthIsZero, JSValue.lengthProp]
  | cons l ls ih =>
    intro i items hne
    have hl : l ≠ [] := hne l (List.mem_cons_self l ls)
    have hls : ∀ m ∈ ls, m ≠ [] := fun m hm => hne m (List.mem_cons_of_mem l hm)
    obtain ⟨a, l2, rfl⟩ : ∃ a l2, l = a :: l2 := by
      cases l with
      | nil => exact absurd rfl hl
      | cons a l2 => exact ⟨a, l2, rfl⟩
    have hstep := getPagedLoop_cons_continue (pageResp (a :: l2)) (JSValue.arr (a :: l2))
      (ls.map mkPage ++ [mkPage []]) i items rfl rfl rfl (lengthIsZero_arr_cons a l2)
    simp only [List.map_cons, List.cons_append, mkPage] at hstep ⊢
    simp only [mkPage] at ih
    rw [hstep, ih (i + 1) (items ++ concatElems (JSValue.arr (a :: l2))) hls]
    simp [pagedEvents, pageResp, concatElems, List.append_assoc]

/-- C8: over a sequence of non-empty array pages followed by an empty page,
`getPaged` (requesting 1-indexed page numbers starting at 1) returns the
concatenation of the page elements in page order, and the event trace shows
that for each non-empty page the `onPage` callback is invoked exactly once,
in page order, after the request and before the items of that page are appended;
the final request meets the empty page and ends the loop. -/
theorem C8_paged_concat (ls : List (List JSValue)) (h : ∀ l ∈ ls, l ≠ []) :
    getPagedLoop (ls.map mkPage ++ [mkPage []]) 1 [] =
      (PagedResult.ret { ok := false, status := none, json := some ls.flatten },
       pagedEvents 1 ls) := by
  have hrun := getPaged_pages ls 1 [] h
  simpa using hrun

/-- Witness for `C8_paged_concat`: pages [[a, b], [c], []] yield [a, b, c]
(the example of spec section 8). -/
theorem C8_paged_concat_witness :
    getPagedLoop ([[JSValue.str ("a"), JSValue.str ("b")], [JSValue.str ("c")]].map mkPage
        ++ [mkPage []]) 1 [] =
      (PagedResult.ret
        { ok := false, status := none,
          json := some [JSValue.str ("a"), JSValue.str ("b"), JSValue.str ("c")] },
       pagedEvents 1 [[JSValue.str ("a"), JSValue.str ("b")], [JSValue.str ("c")]]) := by
  have hrun := C8_paged_concat [[JSValue.str ("a"), JSValue.str ("b")], [JSValue.str ("c")]]
    (by simp)
  simpa using hrun

/-! ## Claim C9 — the aggregate envelope of `getPaged` -/

/-- C9: whenever the pagination loop returns an envelope, that envelope has
`ok = false` and its body is exactly the accumulator extended by the elements
of the `append` events (the successfully consumed non-empty pages); its
status is either absent (natural exhaustion: an empty or falsy body was met)
or the status of the first page envelope that was not ok, every earlier
supplied page having satisfied the continue condition — partial results are
returned together with the failure status. -/
theorem C9_paged_envelope (pages : List FetchOutcome) :
    ∀ (i : Nat) (items : List JSValue) (r : Response (List JSValue)) (evs : List PEvent),
      getPagedLoop pages i items = (PagedResult.ret r, evs) →
      r.ok = false ∧
      r.json = some (items ++ (appendsOf evs).flatten) ∧
      (r.status = none ∨
        ∃ (k : Nat) (resp : Response JSValue),
          pages[k]? = some (FetchOutcome.success resp) ∧ resp.ok = false ∧
          r.status = resp.status ∧
          (∀ m, m < k → ∀ o, pages[m]? = some o → continues o = true)) := by
  induction pages with
  | nil => intro i items r evs h; simp [getPagedLoop] at h
  | cons out rest ih =>
    intro i items r evs h
    cases out with
    | failure e => simp [getPagedLoop] at h
    | incomplete => simp [getPagedLoop] at h
    | success resp =>
      by_cases hok : resp.ok = false
      · rw [getPagedLoop_cons_notOk resp rest i items hok, Prod.mk.injEq,
          PagedResult.ret.injEq] at h
        obtain ⟨h1, hev⟩ := h
        subst h1
        refine ⟨rfl, ?_, Or.inr ⟨0, resp, by simp, hok, rfl, by omega⟩⟩
        rw [← hev]
        simp [appendsOf]
      · have hokt : resp.ok = true := by
          cases hb : resp.ok
          · exact absurd hb hok
          · rfl
        cases hj : resp.json with
        | none =>
          rw [getPagedLoop_cons_noBody resp rest i items hokt hj, Prod.mk.injEq,
            PagedResult.ret.injEq] at h
          obtain ⟨h1, hev⟩ := h
          subst h1
          refine ⟨rfl, ?_, Or.inl rfl⟩
          rw [← hev]
          simp [appendsOf]
        | some j =>
          by_cases htr : j.truthy = true
          · by_cases hlz : j.lengthIsZero = true
            · rw [getPagedLoop_cons_lenZero resp j rest i items hokt hj htr hlz,
                Prod.mk.injEq, PagedResult.ret.injEq] at h
              obtain ⟨h1, hev⟩ := h
              subst h1
              refine ⟨rfl, ?_, Or.inl rfl⟩
              rw [← hev]
              simp [appendsOf]
            · have hlzf : j.lengthIsZero = false := by
                cases hb : j.lengthIsZero
                · rfl
                · exact absurd hb hlz
              rw [getPagedLoop_cons_continue resp j rest i items hokt hj htr hlzf,
                Prod.mk.injEq] at h
              obtain ⟨hq1, hev⟩ := h
              have hqe : getPagedLoop rest (i + 1) (items ++ concatElems j) =
                  (PagedResult.ret r,
                   (getPagedLoop rest (i + 1) (items ++ concatElems j)).2) := by
                rw [← hq1]
              obtain ⟨c1, c2, c3⟩ := ih (i + 1) (items ++ concatElems j) r _ hqe
              refine ⟨c1, ?_, ?_⟩
              · rw [← hev]
                simp only [appendsOf, List.filterMap_cons] at c2 ⊢
                rw [c2]
                simp [List.append_assoc]
              · rcases c3 with hnone | ⟨k, resp2, hk, hok2, hst, hpre⟩
                · exact Or.inl hnone
                · refine Or.inr ⟨k + 1, resp2, by simpa using hk, hok2, hst, ?_⟩
                  intro m hm o ho
                  cases m with
                  | zero =>
                    simp only [List.getElem?_cons_zero, Option.some.injEq] at ho
                    subst ho
                    simp [continues, hokt, hj, htr, hlzf]
                  | succ m2 =>
                    simp only [List.getElem?_cons_succ] at ho
                    exact hpre m2 (by omega) o ho
          · have htrf : j.truthy = false := by
              cases hb : j.truthy
              · rfl
              · exact absurd hb htr
            rw [getPagedLoop_cons_falsy resp j rest i items hokt hj htrf,
              Prod.mk.injEq, PagedResult.ret.injEq] at h
            obtain ⟨h1, hev⟩ := h
            subst h1
            refine ⟨rfl, ?_, Or.inl rfl⟩
            rw [← hev]
            simp [appendsOf]

/-- A page envelope that is not ok (404, unparsable body). -/
def badPage : FetchOutcome :=
  FetchOutcome.success { ok := false, status := some 404, json := none }

/-- Witness for `C9_paged_envelope`: one good page [1] then a 404 page — the
partial results are returned together with the 404. -/
theorem C9_paged_envelope_witness :
    ({ ok := false, status := some 404,
       json := some [JSValue.num 1] } : Response (List JSValue)).ok = false ∧
    ({ ok := false, status := some 404,
       json := some [JSValue.num 1] } : Response (List JSValue)).json =
      some ([] ++ (appendsOf [PEvent.request 1,
        PEvent.onPageCall (pageResp [JSValue.num 1]),
        PEvent.append [JSValue.num 1], PEvent.request 2]).flatten) ∧
    (({ ok := false, status := some 404,
        json := some [JSValue.num 1] } : Response (List JSValue)).status = none ∨
      ∃ (k : Nat) (resp : Response JSValue),
        [mkPage [JSValue.num 1], badPage][k]? = some (FetchOutcome.success resp) ∧
        resp.ok = false ∧
        ({ ok := false, status := some 404,
           json := some [JSValue.num 1] } : Response (List JSValue)).status =
          resp.status ∧
        (∀ m, m < k → ∀ o, [mkPage [JSValue.num 1], badPage][m]? = some o →
          continues o = true)) :=
  C9_paged_envelope [mkPage [JSValue.num 1], badPage] 1 []
    { ok := false, status := some 404, json := some [JSValue.num 1] }
    [PEvent.request 1, PEvent.onPageCall (pageResp [JSValue.num 1]),
     PEvent.append [JSValue.num 1], PEvent.request 2] rfl

/-! ## Claim C10 — the loop guard and non-termination -/

/-- C10: the pagination loop returns an envelope (terminates by `return` or
`break`) only when some supplied page outcome fails the continue condition —
an envelope that is not ok, or whose body is absent or falsy, or whose
`length` property is the number 0; and over any finite prefix of a sequence
of ok envelopes with truthy bodies whose `length` is not 0 (including
non-array JSON objects, whose bodies are appended to the accumulator as
single elements) the loop consumes everything and is still running, so
against such an infinite sequence it never terminates. -/
theorem C10_loop_guard (pages : List FetchOutcome) :
    ∀ (i : Nat) (items : List JSValue),
      (∀ (r : Response (List JSValue)) (evs : List PEvent),
          getPagedLoop pages i items = (PagedResult.ret r, evs) →
          ∃ (k : Nat) (out : FetchOutcome),
            pages[k]? = some out ∧ continues out = false) ∧
      ((∀ out ∈ pages, continues out = true) →
          ∃ evs : List PEvent,
            getPagedLoop pages i items =
              (PagedResult.incomplete (items ++ (pages.map outBodyElems).flatten),
               evs)) := by
  induction pages with
  | nil =>
    intro i items
    constructor
    · intro r evs h; simp [getPagedLoop] at h
    · intro _; exact ⟨[], by simp [getPagedLoop]⟩
  | cons out rest ih =>
    intro i items
    constructor
    · intro r evs h
      cases out with
      | failure e => simp [getPagedLoop] at h
      | incomplete => simp [getPagedLoop] at h
      | success resp =>
        by_cases hok : resp.ok = false
        · exact ⟨0, FetchOutcome.success resp, by simp, by simp [continues, hok]⟩
        · have hokt : resp.ok = true := by
            cases hb : resp.ok
            · exact absurd hb hok
            · rfl
          cases hj : resp.json with
          | none =>
            exact ⟨0, FetchOutcome.success resp, by simp, by simp [continues, hj]⟩
          | some j =>
            by_cases htr : j.truthy = true
            · by_cases hlz : j.lengthIsZero = true
              · exact ⟨0, FetchOutcome.success resp, by simp,
                  by simp [continues, hj, hlz]⟩
              · have hlzf : j.lengthIsZero = false := by
                  cases hb : j.lengthIsZero
                  · rfl
                  · exact absurd hb hlz
                rw [getPagedLoop_cons_continue resp j rest i items hokt hj htr hlzf,
                  Prod.mk.injEq] at h
                obtain ⟨hq1, _⟩ := h
                have hqe : getPagedLoop rest (i + 1) (items ++ concatElems j) =
                    (PagedResult.ret r,
                     (getPagedLoop rest (i + 1) (items ++ concatElems j)).2) := by
                  rw [← hq1]
                obtain ⟨k, o, hk, hc⟩ :=
                  (ih (i + 1) (items ++ concatElems j)).1 r _ hqe
                exact ⟨k + 1, o, by simpa using hk, hc⟩
            · have htrf : j.truthy = false := by
                cases hb : j.truthy
                · rfl
                · exact absurd hb htr
              exact ⟨0, FetchOutcome.success resp, by simp,
                by simp [continues, hj, htrf]⟩
    · intro hall
      cases out with
      | failure e =>
        exact absurd (hall _ (List.mem_cons_self _ _)) (by simp [continues])
      | incomplete =>
        exact absurd (hall _ (List.mem_cons_self _ _)) (by simp [continues])
      | success resp =>
        have hc := hall _ (List.mem_cons_self _ _)
        cases hj : resp.json with
        | none => rw [continues, hj] at hc; simp at hc
        | some j =>
          rw [continues, hj] at hc
          simp only [Bool.and_eq_true, Bool.not_eq_true'] at hc
          obtain ⟨hok, htr, hlz⟩ := hc
          obtain ⟨evs2, hrec⟩ :=
            (ih (i + 1) (items ++ concatElems j)).2
              (fun o ho => hall o (List.mem_cons_of_mem _ ho))
          refine ⟨PEvent.request i :: PEvent.onPageCall resp ::
            PEvent.append (concatElems j) :: evs2, ?_⟩
          rw [getPagedLoop_cons_continue resp j rest i items hok hj htr hlz, hrec]
          simp [outBodyElems, hj, List.append_assoc]

/-- An ok page whose body is a non-array JSON object without a numeric-zero
`length` field. -/
def objPage : FetchOutcome :=
  FetchOutcome.success
    { ok := true, status := some 200,
      json := some (JSValue.obj [(("a"), JSValue.num 1)]) }

/-- Witness for `C10_loop_guard`: two object-body pages keep the loop running
and are appended to the accumulator as single elements. -/
theorem C10_loop_guard_witness :
    (∀ (r : Response (List JSValue)) (evs : List PEvent),
        getPagedLoop [objPage, objPage] 1 [] = (PagedResult.ret r, evs) →
        ∃ (k : Nat) (out : FetchOutcome),
          [objPage, objPage][k]? = some out ∧ continues out = false) ∧
    (∃ evs : List PEvent,
        getPagedLoop [objPage, objPage] 1 [] =
          (PagedResult.incomplete
            ([] ++ ([objPage, objPage].map outBodyElems).flatten), evs)) :=
  ⟨(C10_loop_guard [objPage, objPage] 1 []).1,
   (C10_loop_guard [objPage, objPage] 1 []).2 (by decide)⟩


end Conn
